import Mathlib

/-
Verification of the notebook
`Lectures/Regression/Notebook 6 - Regularization with Lasso and Ridge Regression.ipynb`.

The notebook is a linear sequence of markdown and code cells.  We embed the
code cells shallowly: every operation a code cell performs is recorded as an
`Op` (its kind and the library providing it), and per-cell structural facts
(presence of try/except, file input or output, thread or process creation, and
so on) are recorded as Boolean fields of `CodeCell`.  Numeric computations the
cells perform locally (the numpy `arange` grid, the squared 2-norm expression,
the `coef_holder` slice-assignment loop, the data-generation formulas) are
embedded as executable Lean functions over `ℚ` (with `ℝ` for the one claim
about exact-arithmetic square roots).  Floating-point behaviour that decides a
claim (the length of `np.arange(0, .001, .000001)`) is modelled exactly: IEEE
double values are rationals with 53-bit significands, and each arithmetic step
is followed by round-to-nearest-even, implemented below on `ℚ`.
-/

namespace Notebook6

/-- Library (or other origin) providing an operation executed by a code cell. -/
inductive Provider where
  | sklearn
  | numpy
  | pandas
  | matplotlib
  | seaborn
  | localModule   -- the local helper module `generate`, imported as `g`
  | pythonBuiltin -- plain Python builtins (print, list append, tuple unpack)
  | fromScratch   -- a numerical algorithm implemented in the notebook itself
  deriving DecidableEq, Repr

/-- Kind of operation a code cell performs. -/
inductive OpKind where
  | importOp      -- an import statement
  | dataGen       -- data synthesis or array allocation (linspace, randn, randint, zeros, empty, arange, get_data)
  | polyExpansion -- PolynomialFeatures
  | pipelineBuild -- Pipeline construction
  | olsFit        -- LinearRegression fit
  | ridgeFit      -- Ridge fit
  | lassoFit      -- Lasso fit
  | standardScale -- StandardScaler fit/transform
  | predict       -- pipeline predict
  | normReduce    -- the local squared 2-norm computation np.power(np.sqrt(np.sum(np.power(coefs,2))),2)
  | tableFormat   -- DataFrame construction / np.round for display
  | plot          -- matplotlib / seaborn plotting calls
  | arrayStore    -- slice or element assignment, list append
  | display       -- print or a bare expression displayed by the notebook
  deriving DecidableEq, Repr

/-- One operation performed by a code cell: what it is and which library does it. -/
structure Op where
  kind : OpKind
  provider : Provider
  deriving DecidableEq, Repr

/-- Structural facts about one code cell of the notebook, read off its source. -/
structure CodeCell where
  cellId : ℕ
  ops : List Op
  hasTryExcept : Bool   -- the cell contains a try/except block
  hasRetry : Bool       -- the cell contains retry or fallback logic
  wrapsLibraryErrors : Bool -- the cell wraps or suppresses library failures/warnings
  spawnsThread : Bool   -- the cell creates a thread
  spawnsProcess : Bool  -- the cell creates a process
  usesAsync : Bool      -- the cell creates a coroutine or asynchronous task
  readsFile : Bool      -- the cell reads data from a file or other external source
  writesFile : Bool     -- the cell writes a file / saves a figure / exports a table
  deriving DecidableEq, Repr

/-- Shorthand for a cell none of whose operations touch files, threads or
exception handling; every cell of this notebook is of this shape. -/
def plainCell (id : ℕ) (ops : List Op) : CodeCell :=
  ⟨id, ops, false, false, false, false, false, false, false, false⟩

/-- cell-1: imports pandas, numpy, matplotlib, seaborn; sns.set_style. -/
def cell1 : CodeCell := plainCell 1
  [⟨.importOp, .pandas⟩, ⟨.importOp, .numpy⟩, ⟨.importOp, .matplotlib⟩,
   ⟨.importOp, .seaborn⟩, ⟨.plot, .seaborn⟩]

/-- cell-3: x = np.linspace(-3,3,100); y = x*(x-1) + 1.2*np.random.randn(100);
scatter/line plot of the data. -/
def cell3 : CodeCell := plainCell 3
  [⟨.dataGen, .numpy⟩, ⟨.dataGen, .numpy⟩, ⟨.plot, .matplotlib⟩]

/-- cell-4: imports PolynomialFeatures, Pipeline, LinearRegression from sklearn. -/
def cell4 : CodeCell := plainCell 4
  [⟨.importOp, .sklearn⟩, ⟨.importOp, .sklearn⟩, ⟨.importOp, .sklearn⟩]

/-- cell-5: n = 26; coef_holder = np.zeros((n,n)). -/
def cell5 : CodeCell := plainCell 5 [⟨.dataGen, .numpy⟩]

/-- cell-6: for i in 1..n: Pipeline(PolynomialFeatures(i, include_bias=False),
LinearRegression()); pipe.fit; coef_holder[i-1,:i] = np.round(coef_,3). -/
def cell6 : CodeCell := plainCell 6
  [⟨.pipelineBuild, .sklearn⟩, ⟨.polyExpansion, .sklearn⟩, ⟨.olsFit, .sklearn⟩,
   ⟨.tableFormat, .numpy⟩, ⟨.arrayStore, .numpy⟩]

/-- cell-7: pd.DataFrame display of coef_holder. -/
def cell7 : CodeCell := plainCell 7 [⟨.tableFormat, .pandas⟩, ⟨.display, .pythonBuiltin⟩]

/-- cell-8: plot of observed data, pipe.predict curve and true relationship. -/
def cell8 : CodeCell := plainCell 8 [⟨.predict, .sklearn⟩, ⟨.plot, .matplotlib⟩]

/-- cell-10: imports Ridge from sklearn.linear_model. -/
def cell10 : CodeCell := plainCell 10 [⟨.importOp, .sklearn⟩]

/-- cell-11: alphas = np.arange(0,.001,.000001); for each alpha fit
Pipeline(PolynomialFeatures(30, include_bias=False), Ridge(alpha, normalize=True));
norms.append(np.power(np.sqrt(np.sum(np.power(coefs,2))),2)). -/
def cell11 : CodeCell := plainCell 11
  [⟨.dataGen, .numpy⟩, ⟨.pipelineBuild, .sklearn⟩, ⟨.polyExpansion, .sklearn⟩,
   ⟨.ridgeFit, .sklearn⟩, ⟨.normReduce, .numpy⟩, ⟨.arrayStore, .pythonBuiltin⟩]

/-- cell-12: plot of alphas against norms. -/
def cell12 : CodeCell := plainCell 12 [⟨.plot, .matplotlib⟩]

/-- cell-14: age = np.random.randint(20,40,100); distance = 3*np.random.randn(100)+10;
tiredness = age + 3*distance + 2*np.random.randn(100); df = pd.DataFrame(...). -/
def cell14 : CodeCell := plainCell 14
  [⟨.dataGen, .numpy⟩, ⟨.dataGen, .numpy⟩, ⟨.dataGen, .numpy⟩, ⟨.tableFormat, .pandas⟩]

/-- cell-16: blank practice cell (comment only). -/
def cell16 : CodeCell := plainCell 16 []

/-- cell-17: blank practice cell (comment only). -/
def cell17 : CodeCell := plainCell 17 []

/-- cell-19: blank practice cell (comment only). -/
def cell19 : CodeCell := plainCell 19 []

/-- cell-20: blank practice cell (comment only). -/
def cell20 : CodeCell := plainCell 20 []

/-- cell-22: blank practice cell (comment only). -/
def cell22 : CodeCell := plainCell 22 []

/-- cell-23: blank practice cell (comment only). -/
def cell23 : CodeCell := plainCell 23 []

/-- cell-25: imports StandardScaler from sklearn.preprocessing. -/
def cell25 : CodeCell := plainCell 25 [⟨.importOp, .sklearn⟩]

/-- cell-26: blank practice cell (comment only). -/
def cell26 : CodeCell := plainCell 26 []

/-- cell-27: blank practice cell (comment only). -/
def cell27 : CodeCell := plainCell 27 []

/-- cell-30: x = np.linspace(-3,3,100); y = x*(x-1) + 1.2*np.random.randn(100). -/
def cell30 : CodeCell := plainCell 30 [⟨.dataGen, .numpy⟩, ⟨.dataGen, .numpy⟩]

/-- cell-32: imports Lasso from sklearn.linear_model. -/
def cell32 : CodeCell := plainCell 32 [⟨.importOp, .sklearn⟩]

/-- cell-33: alpha = [0.00001,...,1000]; ridge_coefs/lasso_coefs = np.empty((9,10));
for each alpha fit a ridge pipeline and a lasso pipeline (PolynomialFeatures(10,
include_bias=False), Ridge/Lasso(alpha, normalize=True[, max_iter=1000000]));
store both coefficient rows. -/
def cell33 : CodeCell := plainCell 33
  [⟨.dataGen, .numpy⟩, ⟨.dataGen, .numpy⟩,
   ⟨.pipelineBuild, .sklearn⟩, ⟨.pipelineBuild, .sklearn⟩,
   ⟨.polyExpansion, .sklearn⟩, ⟨.polyExpansion, .sklearn⟩,
   ⟨.ridgeFit, .sklearn⟩, ⟨.lassoFit, .sklearn⟩,
   ⟨.arrayStore, .numpy⟩, ⟨.arrayStore, .numpy⟩]

/-- cell-34: print header; pd.DataFrame(np.round(ridge_coefs,8), ...). -/
def cell34 : CodeCell := plainCell 34
  [⟨.display, .pythonBuiltin⟩, ⟨.tableFormat, .numpy⟩, ⟨.tableFormat, .pandas⟩]

/-- cell-35: print header; pd.DataFrame(np.round(lasso_coefs,8), ...). -/
def cell35 : CodeCell := plainCell 35
  [⟨.display, .pythonBuiltin⟩, ⟨.tableFormat, .numpy⟩, ⟨.tableFormat, .pandas⟩]

/-- cell-37: import generate as g. -/
def cell37 : CodeCell := plainCell 37 [⟨.importOp, .localModule⟩]

/-- cell-38: X,y = g.get_data(). -/
def cell38 : CodeCell := plainCell 38 [⟨.dataGen, .localModule⟩]

/-- cell-39: blank practice cell (comment only). -/
def cell39 : CodeCell := plainCell 39 []

/-- cell-40: blank practice cell (comment only). -/
def cell40 : CodeCell := plainCell 40 []

/-- cell-41: blank practice cell (comment only). -/
def cell41 : CodeCell := plainCell 41 []

/-- cell-42: blank practice cell (comment only). -/
def cell42 : CodeCell := plainCell 42 []

/-- cell-43: g.give_how_generated(). -/
def cell43 : CodeCell := plainCell 43 [⟨.display, .localModule⟩]

/-- All code cells of the notebook, in order.  Cells absent here are markdown. -/
def notebookCells : List CodeCell :=
  [cell1, cell3, cell4, cell5, cell6, cell7, cell8, cell10, cell11, cell12,
   cell14, cell16, cell17, cell19, cell20, cell22, cell23, cell25, cell26,
   cell27, cell30, cell32, cell33, cell34, cell35, cell37, cell38, cell39,
   cell40, cell41, cell42, cell43]

/-! ### Exact model of IEEE double arithmetic, for the numpy arange grid

`np.arange(start, stop, step)` allocates `ceil((stop - start) / step)` slots,
with the subtraction and the division performed in IEEE-754 double precision
(round to nearest, ties to even).  Every finite double is a rational with a
53-bit significand, so we model doubles as rationals and each arithmetic step
as exact rational arithmetic followed by `roundDouble`. -/

/-- A fraction `num / den` with positive denominator, not necessarily reduced.
Exact rational values are carried in this form so that the whole model is
plain integer arithmetic; `Frac.toRat` interprets it in `ℚ`. -/
structure Frac where
  num : ℤ
  den : ℤ
  deriving DecidableEq, Repr

/-- The rational a fraction denotes. -/
def Frac.toRat (a : Frac) : ℚ := (a.num : ℚ) / (a.den : ℚ)

/-- Build a fraction, normalizing the sign into the numerator. -/
def mkFrac (n d : ℤ) : Frac := if d < 0 then ⟨-n, -d⟩ else ⟨n, d⟩

/-- Exact difference of two fractions. -/
def Frac.sub (a b : Frac) : Frac :=
  mkFrac (a.num * b.den - b.num * a.den) (a.den * b.den)

/-- Exact sum of two fractions. -/
def Frac.add (a b : Frac) : Frac :=
  mkFrac (a.num * b.den + b.num * a.den) (a.den * b.den)

/-- Exact product of two fractions. -/
def Frac.mul (a b : Frac) : Frac := mkFrac (a.num * b.num) (a.den * b.den)

/-- Exact quotient of two fractions. -/
def Frac.div (a b : Frac) : Frac := mkFrac (a.num * b.den) (a.den * b.num)

/-- Floor of a fraction (`Int.fdiv` rounds toward minus infinity). -/
def Frac.floor (a : Frac) : ℤ := Int.fdiv a.num a.den

/-- Ceiling of a fraction. -/
def Frac.ceil (a : Frac) : ℤ := -(Frac.floor ⟨-a.num, a.den⟩)

/-- Nearest integer to a fraction, ties to even (IEEE default rounding). -/
def roundHalfEvenF (a : Frac) : ℤ :=
  let f := a.floor
  let twice := 2 * (a.num - f * a.den)
  if twice < a.den then f
  else if a.den < twice then f + 1
  else if f % 2 = 0 then f else f + 1

/-- Base-2 logarithm on naturals by fuelled halving (fuel `n` suffices). -/
def natLog2Aux : ℕ → ℕ → ℕ
  | 0, _ => 0
  | fuel + 1, n => if n < 2 then 0 else natLog2Aux fuel (n / 2) + 1

/-- Largest `e` with `2 ^ e ≤ n`, for `n ≥ 1`. -/
def natLog2 (n : ℕ) : ℕ := natLog2Aux n n

/-- Smallest `k` with `n ≤ 2 ^ k`. -/
def natClog2 (n : ℕ) : ℕ := if n ≤ 1 then 0 else natLog2 (n - 1) + 1

/-- Binade exponent of a positive fraction: the `e` with `2 ^ e ≤ a < 2 ^ (e+1)`. -/
def qExp2F (a : Frac) : ℤ :=
  if a.den ≤ a.num then (natLog2 a.floor.toNat : ℤ)
  else -(natClog2 (Frac.ceil ⟨a.den, a.num⟩).toNat : ℤ)

/-- Round a fraction to the nearest IEEE double (53-bit significand, round to
nearest, ties to even).  Normal range only, which covers every value the
notebook's arange computation produces. -/
def roundDoubleF (q : Frac) : Frac :=
  if q.num = 0 then ⟨0, 1⟩
  else
    let pos : Frac := if q.num < 0 then ⟨-q.num, q.den⟩ else q
    let e := qExp2F pos
    let scaled : Frac :=
      if e ≤ 52 then ⟨pos.num * ((2 ^ (52 - e).toNat : ℕ) : ℤ), pos.den⟩
      else ⟨pos.num, pos.den * ((2 ^ (e - 52).toNat : ℕ) : ℤ)⟩
    let m := roundHalfEvenF scaled
    let mag : Frac :=
      if e ≤ 52 then ⟨m, ((2 ^ (52 - e).toNat : ℕ) : ℤ)⟩
      else ⟨m * ((2 ^ (e - 52).toNat : ℕ) : ℤ), 1⟩
    if q.num < 0 then ⟨-mag.num, mag.den⟩ else mag

/-- The IEEE double denoted by the decimal literal `n / d` in the Python source. -/
def npFloat (n d : ℤ) : Frac := roundDoubleF (mkFrac n d)

/-- Number of elements of `np.arange(start, stop, step)`: numpy computes
`ceil((stop - start) / step)` with the subtraction and the division performed
in double precision.  Arguments are the doubles denoted by the source
literals. -/
def arangeLen (start stop step : Frac) : ℕ :=
  (Frac.ceil (roundDoubleF ((roundDoubleF (stop.sub start)).div step))).toNat

/-- The elements of `np.arange(start, stop, step)`: slot `i` holds
`start + i * step` evaluated in double precision. -/
def arangeVals (start stop step : Frac) : List Frac :=
  (List.range (arangeLen start stop step)).map
    fun (i : ℕ) => roundDoubleF (start.add (roundDoubleF (Frac.mul ⟨(i : ℤ), 1⟩ step)))

/-! ### The two alpha sweeps (cell-11 and cell-33) -/

/-- cell-11: `alphas = np.arange(0,.001,.000001)`, interpreted in `ℚ`. -/
def cell11Alphas : List ℚ :=
  (arangeVals (npFloat 0 1) (npFloat 1 1000) (npFloat 1 1000000)).map Frac.toRat

/-- cell-33: `alpha = [0.00001,0.0001,0.001,0.01,0.1,1,10,100,1000]`, recorded
as the exact decimal values the literals denote. -/
def cell33Alphas : List ℚ :=
  [1/100000, 1/10000, 1/1000, 1/100, 1/10, 1, 10, 100, 1000]

/-- One hyperparameter sweep: which cell it lives in, the alpha grid, and how
many models are fitted per grid point. -/
structure AlphaSweep where
  sourceCell : ℕ
  alphas : List ℚ
  fitsPerAlpha : ℕ
  deriving DecidableEq

/-- Every alpha sweep in the notebook: cell-11 fits one ridge pipeline per
alpha; cell-33 fits one ridge and one lasso pipeline per alpha.  No other code
cell mentions an alpha value. -/
def notebookSweeps : List AlphaSweep :=
  [⟨11, cell11Alphas, 1⟩, ⟨33, cell33Alphas, 2⟩]

/-! ### Polynomial feature counts and slice-assignment shapes (cell-6, cell-33) -/

/-- Number of output features of sklearn `PolynomialFeatures(degree)` on
`nIn` input features: all monomials of total degree at most `degree`, the
constant monomial dropped when `include_bias=False`. -/
def nPolyTerms (nIn degree : ℕ) (includeBias : Bool) : ℕ :=
  (nIn + degree).choose degree - (if includeBias then 0 else 1)

/-- Length of the numpy basic slice `row[:stop]` of a row of length `rowLen`. -/
def sliceLen (rowLen stop : ℕ) : ℕ := min stop rowLen

/-- Shape consistency of `row[:stop] = vec`: the slice and the vector have the
same number of entries. -/
def rowAssignOK (rowLen stop vecLen : ℕ) : Prop := sliceLen rowLen stop = vecLen

/-! ### The coef_holder loop (cell-5 / cell-6)

`coef_holder = np.zeros((26,26))`; then for `i` in `1..26` the loop body does
`coef_holder[i-1,:i] = np.round(coef_, 3)` where `coef_` is the fitted
coefficient vector for degree `i`.  We take the fitted vectors as an abstract
family `coef : ℕ → ℕ → ℚ` (degree, position) since sklearn computes them, and
model the matrix as a total function out of row/column indices. -/

/-- `np.round(q, 3)`: round to 3 decimal places, ties to even. -/
def round3 (q : ℚ) : ℚ := (roundHalfEvenF ⟨q.num * 1000, (q.den : ℤ)⟩ : ℚ) / 1000

/-- Slice assignment `M[r, :len] = vals`. -/
def writeRow (M : ℕ → ℕ → ℚ) (r len : ℕ) (vals : ℕ → ℚ) : ℕ → ℕ → ℚ :=
  fun a b => if a = r ∧ b < len then vals b else M a b

/-- State of `coef_holder` after the loop iterations `i = 1 .. n`: iteration
`i = k+1` writes row `k`, columns `0 .. k`. -/
def coef_holder_after (coef : ℕ → ℕ → ℚ) : ℕ → ℕ → ℕ → ℚ
  | 0 => fun _ _ => 0
  | k + 1 =>
      writeRow (coef_holder_after coef k) k (k + 1) (fun j => round3 (coef (k + 1) j))

/-! ### The squared 2-norm expression of cell-11, over exact arithmetic -/

/-- `np.sum(np.power(coefs, 2))`: the sum of the squares of the entries. -/
noncomputable def sumSquares (l : List ℝ) : ℝ := (l.map fun c => c ^ 2).sum

/-- The value cell-11 appends to `norms`:
`np.power(np.sqrt(np.sum(np.power(coefs,2))),2)`. -/
noncomputable def normAppended (l : List ℝ) : ℝ := Real.sqrt (sumSquares l) ^ 2

/-! ### Data-generation formulas (cell-3, cell-14, cell-30) -/

/-- `np.linspace(a, b, num)`: `num` evenly spaced points from `a` to `b`. -/
def linspaceQ (a b : ℚ) (num : ℕ) : List ℚ :=
  (List.range num).map fun (i : ℕ) => a + (b - a) * (i : ℚ) / ((num : ℚ) - 1)

/-- cell-3 / cell-30: `y = x*(x-1) + 1.2*np.random.randn(100)`, entrywise with
noise draw `ε`. -/
def gen_y (x ε : ℚ) : ℚ := x * (x - 1) + 12/10 * ε

/-- cell-14: `distance = 3*np.random.randn(100)+10`, entrywise. -/
def gen_distance (ε : ℚ) : ℚ := 3 * ε + 10

/-- cell-14: `tiredness = age + 3*distance + 2*np.random.randn(100)`, entrywise. -/
def gen_tiredness (age dist ε : ℚ) : ℚ := age + 3 * dist + 2 * ε

/-! ### Uses of the local helper module `generate` (cell-37, cell-38, cell-43) -/

/-- One attribute access on the module imported as `g`: the attribute name, the
number of call arguments, and the number of names the result is destructured
into (0 when the result is not bound). -/
structure ModuleUse where
  attrName : String
  callArgs : ℕ
  namesBound : ℕ
  deriving DecidableEq

/-- Every access to the `generate` module in the notebook: `X,y = g.get_data()`
in cell-38 and `g.give_how_generated()` in cell-43. -/
def generateUses : List ModuleUse :=
  [⟨"get_data", 0, 2⟩, ⟨"give_how_generated", 0, 0⟩]

/-! ### The lasso configuration of cell-33 -/

/-- Keyword arguments passed to `Lasso(...)` in cell-33, in source order:
`alpha = alpha[i], normalize=True, max_iter = 1000000`. -/
def cell33LassoKwargs : List String := ["alpha", "normalize", "max_iter"]

/-- The `max_iter` value passed to `Lasso` in cell-33. -/
def cell33LassoMaxIter : ℕ := 1000000

/-- The cell-11 sweep: one ridge pipeline fitted per alpha value. -/
def sweep11 : AlphaSweep := ⟨11, cell11Alphas, 1⟩

/-- The cell-33 sweep: one ridge and one lasso pipeline fitted per alpha value. -/
def sweep33 : AlphaSweep := ⟨33, cell33Alphas, 2⟩

/-! ## Helper lemmas -/

/-- The arange grid of cell-11 has 1001 slots, not 1000: in double precision
`(0.001 - 0) / 0.000001` is slightly above 1000, and numpy takes the ceiling. -/
theorem arangeLen_cell11 :
    arangeLen (npFloat 0 1) (npFloat 1 1000) (npFloat 1 1000000) = 1001 := by
  decide

/-- Length of the cell-11 alpha grid. -/
theorem cell11Alphas_length : cell11Alphas.length = 1001 := by
  unfold cell11Alphas arangeVals
  rw [List.length_map, List.length_map, List.length_range, arangeLen_cell11]

/-- Closed form for the `coef_holder` loop state: row `a` is written only by
iteration `i = a + 1`, which fills columns `0 .. a`; all other entries keep
their initial value `0`. -/
theorem coef_holder_after_eq (coef : ℕ → ℕ → ℚ) :
    ∀ n a b, coef_holder_after coef n a b =
      if a < n ∧ b < a + 1 then round3 (coef (a + 1) b) else 0 := by
  intro n
  induction n with
  | zero =>
      intro a b
      simp [coef_holder_after]
  | succ k ih =>
      intro a b
      simp only [coef_holder_after, writeRow]
      by_cases h : a = k ∧ b < k + 1
      · obtain ⟨rfl, hb⟩ := h
        rw [if_pos ⟨rfl, hb⟩, if_pos ⟨Nat.lt_succ_self a, hb⟩]
      · rw [if_neg h, ih a b]
        have hiff : (a < k ∧ b < a + 1) ↔ (a < k + 1 ∧ b < a + 1) := by
          constructor
          · exact fun hh => ⟨Nat.lt_succ_of_lt hh.1, hh.2⟩
          · rintro ⟨h1, h2⟩
            refine ⟨?_, h2⟩
            rcases Nat.lt_succ_iff_lt_or_eq.mp h1 with h3 | rfl
            · exact h3
            · exact absurd ⟨rfl, h2⟩ h
        rw [if_congr hiff rfl rfl]

/-! ## Claims -/

/-- C1: every numerical operation the notebook performs — polynomial feature
expansion, ordinary least squares fitting, ridge and lasso fitting, and
standard scaling — is a call into the external sklearn library; no operation
of any cell is a numerical algorithm implemented from scratch; and the one
borderline computation, the squared 2-norm of the coefficient vector in the
alpha-sweep cell, is delegated to numpy. -/
theorem C1_all_numerics_delegated :
    (∀ c ∈ notebookCells, ∀ op ∈ c.ops,
       (op.kind = OpKind.polyExpansion ∨ op.kind = OpKind.olsFit ∨
        op.kind = OpKind.ridgeFit ∨ op.kind = OpKind.lassoFit ∨
        op.kind = OpKind.standardScale) → op.provider = Provider.sklearn)
    ∧ (∀ c ∈ notebookCells, ∀ op ∈ c.ops, op.provider ≠ Provider.fromScratch)
    ∧ (⟨OpKind.normReduce, Provider.numpy⟩ : Op) ∈ cell11.ops := by
  decide

/-- Witness for C1 at the degree-loop cell and its OLS fit. -/
theorem C1_witness :
    (⟨OpKind.olsFit, Provider.sklearn⟩ : Op).provider = Provider.sklearn :=
  C1_all_numerics_delegated.1 cell6 (by decide)
    ⟨OpKind.olsFit, Provider.sklearn⟩ (by decide) (Or.inr (Or.inl rfl))

/-- C2: for every degree `i` from 1 to 26, `PolynomialFeatures(i,
include_bias=False)` on one input feature yields `i` terms, so the fitted
coefficient vector has `i` entries and the slice assignment
`coef_holder[i-1,:i] = coef_` into a row of length 26 is shape-consistent;
likewise in the ridge/lasso comparison `n = 10` gives 10 terms matching the
full-row assignments `ridge_coefs[i,:]` and `lasso_coefs[i,:]`. -/
theorem C2_coef_shapes (i : ℕ) (h1 : 1 ≤ i) (h2 : i ≤ 26) :
    nPolyTerms 1 i false = i ∧
    rowAssignOK 26 i (nPolyTerms 1 i false) ∧
    nPolyTerms 1 10 false = 10 ∧
    rowAssignOK 10 10 (nPolyTerms 1 10 false) := by
  have hterms : ∀ d : ℕ, nPolyTerms 1 d false = d := by
    intro d
    unfold nPolyTerms
    rw [Nat.add_comm 1 d, Nat.choose_succ_self_right]
    simp
  refine ⟨hterms i, ?_, hterms 10, ?_⟩
  · unfold rowAssignOK sliceLen
    rw [hterms i]
    omega
  · unfold rowAssignOK sliceLen
    rw [hterms 10]
    omega

/-- Witness for C2 at degree 7. -/
theorem C2_witness :
    nPolyTerms 1 7 false = 7 ∧
    rowAssignOK 26 7 (nPolyTerms 1 7 false) ∧
    nPolyTerms 1 10 false = 10 ∧
    rowAssignOK 10 10 (nPolyTerms 1 10 false) :=
  C2_coef_shapes 7 (by decide) (by decide)

/-- C3 counterexample: the arithmetic progression `np.arange(0, .001, .000001)`
does not have 1000 values — in IEEE double arithmetic `(0.001 - 0) / 0.000001`
rounds to a value slightly above 1000 and numpy's ceiling yields 1001. -/
theorem C3_counterexample :
    cell11Alphas.length ≠ 1000 ∧ cell11Alphas.length = 1001 := by
  rw [cell11Alphas_length]
  exact ⟨by decide, rfl⟩

set_option maxRecDepth 4000 in
/-- C3 as amended: the scalar penalty hyperparameter alpha is swept only over
a small discrete or arithmetic range: every sweep iterates over either the
finite arithmetic progression `np.arange(0, .001, .000001)` — start 0, step
1e-6, 1001 values — or the explicit 9-element list
`[0.00001, 0.0001, 0.001, 0.01, 0.1, 1, 10, 100, 1000]`, fitting exactly one
model per value (two in the ridge/lasso comparison), and no other alpha values
are used. -/
theorem C3_amended_sweeps :
    cell11Alphas.length = 1001 ∧
    cell33Alphas = [1/100000, 1/10000, 1/1000, 1/100, 1/10, 1, 10, 100, 1000] ∧
    cell33Alphas.length = 9 ∧
    (∀ s ∈ notebookSweeps,
       (s.alphas = cell11Alphas ∧ s.fitsPerAlpha = 1) ∨
       (s.alphas = cell33Alphas ∧ s.fitsPerAlpha = 2)) := by
  refine ⟨cell11Alphas_length, rfl, rfl, ?_⟩
  intro s hs
  simp only [notebookSweeps, List.mem_cons, List.not_mem_nil, or_false] at hs
  rcases hs with rfl | rfl
  · exact Or.inl ⟨rfl, rfl⟩
  · exact Or.inr ⟨rfl, rfl⟩

/-- Witness for C3 at the cell-33 sweep. -/
theorem C3_witness :
    (sweep33.alphas = cell11Alphas ∧ sweep33.fitsPerAlpha = 1) ∨
    (sweep33.alphas = cell33Alphas ∧ sweep33.fitsPerAlpha = 2) :=
  C3_amended_sweeps.2.2.2 sweep33 (by simp [notebookSweeps, sweep11, sweep33])

/-- C4: the notebook touches the local helper module `generate` through exactly
two attributes: `get_data`, called with no arguments and destructured into the
pair `X, y`, and `give_how_generated`, called with no arguments and with its
result unbound; no other attribute of the module is accessed. -/
theorem C4_generate_module_uses :
    generateUses = [⟨"get_data", 0, 2⟩, ⟨"give_how_generated", 0, 0⟩] ∧
    (∀ u ∈ generateUses, u.callArgs = 0) ∧
    (∀ u ∈ generateUses,
       (u.attrName = "get_data" ∧ u.namesBound = 2) ∨
       (u.attrName = "give_how_generated" ∧ u.namesBound = 0)) := by
  decide

/-- Witness for C4 at the `get_data` access. -/
theorem C4_witness :
    (⟨"get_data", 0, 2⟩ : ModuleUse).callArgs = 0 :=
  C4_generate_module_uses.2.1 ⟨"get_data", 0, 2⟩ (by decide)

/-- C5: no code cell contains a try/except, retry, fallback, or wrapping of
library failures, and the lasso fit of cell-33 is configured only through the
keyword arguments `alpha`, `normalize`, `max_iter` with `max_iter = 1000000`,
so library exceptions and warnings propagate out of the cells unchanged. -/
theorem C5_no_error_handling :
    (∀ c ∈ notebookCells,
       c.hasTryExcept = false ∧ c.hasRetry = false ∧ c.wrapsLibraryErrors = false) ∧
    cell33LassoKwargs = ["alpha", "normalize", "max_iter"] ∧
    cell33LassoMaxIter = 1000000 := by
  decide

/-- Witness for C5 at the lasso cell. -/
theorem C5_witness :
    cell33.hasTryExcept = false ∧ cell33.hasRetry = false ∧
    cell33.wrapsLibraryErrors = false :=
  C5_no_error_handling.1 cell33 (by decide)

/-- C6: no code cell persists state outside the in-process session — no cell
writes a file, saves a figure, or exports a table. -/
theorem C6_no_persistence :
    ∀ c ∈ notebookCells, c.writesFile = false := by
  decide

/-- Witness for C6 at the coefficient-table display cell. -/
theorem C6_witness : cell34.writesFile = false :=
  C6_no_persistence cell34 (by decide)

/-- C7: execution is single-threaded and sequential — no cell creates a
thread, process, coroutine, or asynchronous task, and every import is of one
of the data/plotting/statistics libraries or the local helper module. -/
theorem C7_no_concurrency :
    (∀ c ∈ notebookCells,
       c.spawnsThread = false ∧ c.spawnsProcess = false ∧ c.usesAsync = false) ∧
    (∀ c ∈ notebookCells, ∀ op ∈ c.ops, op.kind = OpKind.importOp →
       op.provider ∈ [Provider.pandas, Provider.numpy, Provider.matplotlib,
                      Provider.seaborn, Provider.sklearn, Provider.localModule]) := by
  decide

/-- Witness for C7 at the import cell. -/
theorem C7_witness :
    cell1.spawnsThread = false ∧ cell1.spawnsProcess = false ∧
    cell1.usesAsync = false :=
  C7_no_concurrency.1 cell1 (by decide)

/-- C8: every dataset the notebook fits, other than the one obtained from
`generate.get_data()`, is synthesized in-notebook: entrywise
`y = x*(x-1) + 1.2*randn` over the 100-point grid `linspace(-3,3,100)`, and
`tiredness = age + 3*distance + 2*randn` with `distance = 3*randn + 10`;
no cell reads a file, and every data-generating operation is a numpy call
except the `get_data()` call into the local module. -/
theorem C8_datasets_synthesized :
    (∀ x ε : ℚ, gen_y x ε = x * (x - 1) + 12/10 * ε) ∧
    (∀ ε : ℚ, gen_distance ε = 3 * ε + 10) ∧
    (∀ a d ε : ℚ, gen_tiredness a d ε = a + 3 * d + 2 * ε) ∧
    (linspaceQ (-3) 3 100).length = 100 ∧
    (∀ c ∈ notebookCells, c.readsFile = false) ∧
    (∀ c ∈ notebookCells, ∀ op ∈ c.ops, op.kind = OpKind.dataGen →
       op.provider = Provider.numpy ∨ op.provider = Provider.localModule) := by
  refine ⟨fun _ _ => rfl, fun _ => rfl, fun _ _ _ => rfl, ?_, by decide, by decide⟩
  unfold linspaceQ
  rw [List.length_map, List.length_range]

/-- Witness for C8 at the first synthesis cell. -/
theorem C8_witness : cell3.readsFile = false :=
  C8_datasets_synthesized.2.2.2.2.1 cell3 (by decide)

/-- C9: over exact arithmetic, the value cell-11 appends to `norms`,
`np.power(np.sqrt(np.sum(np.power(coefs,2))),2)`, equals the sum of the
squares of the coefficient entries, for every coefficient vector: squaring the
square root of the non-negative sum of squares is the identity. -/
theorem C9_norm_identity (l : List ℝ) : normAppended l = sumSquares l := by
  unfold normAppended
  rw [Real.sq_sqrt]
  apply List.sum_nonneg
  intro x hx
  simp only [List.mem_map] at hx
  obtain ⟨c, -, rfl⟩ := hx
  positivity

/-- C10: after the cell-6 loop, every entry `coef_holder[i-1, j]` with
`j ≥ i` still holds its initial value 0, and every entry with `j < i` holds
the degree-`i` fitted coefficient rounded to 3 decimal places. -/
theorem C10_coef_holder_frame (coef : ℕ → ℕ → ℚ) (i j : ℕ)
    (h1 : 1 ≤ i) (h2 : i ≤ 26) :
    (i ≤ j → coef_holder_after coef 26 (i - 1) j = 0) ∧
    (j < i → coef_holder_after coef 26 (i - 1) j = round3 (coef i j)) := by
  constructor
  · intro hij
    rw [coef_holder_after_eq, if_neg]
    rintro ⟨-, hj⟩
    omega
  · intro hij
    rw [coef_holder_after_eq, if_pos ⟨by omega, by omega⟩, Nat.sub_add_cancel h1]

/-- Witness for C10 with a constant coefficient family at degree 3. -/
theorem C10_witness :
    coef_holder_after (fun _ _ => (5 : ℚ)/2) 26 2 7 = 0 ∧
    coef_holder_after (fun _ _ => (5 : ℚ)/2) 26 2 1 = round3 (5/2) :=
  ⟨(C10_coef_holder_frame (fun _ _ => (5 : ℚ)/2) 3 7 (by decide) (by decide)).1 (by decide),
   (C10_coef_holder_frame (fun _ _ => (5 : ℚ)/2) 3 1 (by decide) (by decide)).2 (by decide)⟩

end Notebook6
